import Mathlib

/-!
Shallow embedding of the BDO market scanner (`src/app.py`): the recipe
catalog loader, the recursive stock / craftability resolver, and the
final result aggregation, together with theorems settling the frozen
claims about them.

Modelling conventions:
* Python `dict` assignment is modelled by prepending a binding to an
  association list and looking up the first (most recent) binding, so
  a later assignment to the same key shadows the earlier one exactly
  as a dict overwrite does.
* Item display names are an opaque key type `α` with decidable
  equality: the source only ever uses names as dict keys and for
  equality tests.
* Stocks and the minimum-stock threshold are `Nat` (API stocks are
  item counts; the threshold widget has a non-negative floor).
* The ambient `st.session_state.min_stock_val` read inside
  `check_stock_recursive` (app.py line 154) is made an explicit
  `min_stock_val` argument: each value of that argument corresponds
  to one state of the session store.
* The Python depth counter counts up, with guard `depth > 5`
  (app.py line 147); calls at depth 0..5 do real work and every call
  at depth 6 or more returns False immediately.  We recurse on the
  residual budget `fuel := 6 - depth`, so the guard becomes
  `fuel = 0`, every recursive call (`depth + 1`) decrements `fuel`,
  and the top-level call (Python default `depth=0`) has `fuel = 6`.
-/

namespace BDO

/-- First-match lookup in an association list.  Models Python dict
lookup, given that dict assignment is modelled by prepending. -/
def findFirst {α β : Type} [DecidableEq α] : List (α × β) → α → Option β
  | [], _ => none
  | (k, v) :: rest, t => if k = t then some v else findFirst rest t

/-- Python `market_data.get(target_id, 0)` (app.py line 153): stock of
an item in the market snapshot, defaulting to 0 when absent. -/
def getD0 (market_data : List (Int × Nat)) (t : Int) : Nat :=
  (findFirst market_data t).getD 0

/-- The vendor id set hard-coded in `load_recipe_db` (app.py line 31). -/
def vendor_ids : List Int :=
  [5600, 9059, 9001, 9002, 9005, 9015, 9016, 9017, 9018, 9066, 6656, 6655, 9003, 9006]

/-- Python `check_stock_recursive` (app.py lines 146-181).

The loader stores `recipe_db[pid]` as a list of ingredient slots,
each slot a list of alternative item ids (`List (List Int)`).  The
Python function iterates `for group in ingredients` (each `group` is
therefore one slot), then `for options in group` (each `options` is
therefore a single `int` alternative id), and the
`isinstance(options, int)` branch wraps that id into the singleton
list `[options]`, whose inner loop is a single recursive call.  On
the loader's data the three nested Python loops therefore collapse to:
`any` over the slot list of `all` over that slot's alternative ids of
a recursive call at one less residual depth.

The check order is exactly the source order: depth guard first
(line 147), then vendor set (line 150), then market stock against the
session threshold (lines 153-154), then recipe expansion (157-179),
else False (line 181). -/
def check_stock_recursive (market_data : List (Int × Nat))
    (recipe_db : List (Int × List (List Int))) (vendor_ids : List Int)
    (min_stock_val : Nat) : Nat → Int → Bool
  | 0, _ => false
  | fuel + 1, target_id =>
    if vendor_ids.contains target_id then true
    else if min_stock_val ≤ getD0 market_data target_id then true
    else
      match findFirst recipe_db target_id with
      | none => false
      | some ingredients =>
        ingredients.any fun group =>
          group.all fun opt_id =>
            check_stock_recursive market_data recipe_db vendor_ids min_stock_val fuel opt_id

/-- The manual top-level craftability check in `main`
(app.py lines 258-278).  Same loop structure as the recipe-expansion
case of `check_stock_recursive`, with the slot options checked by
`check_stock_recursive` at the Python default depth 0, i.e. residual
budget 6. -/
def can_craft (market_stock : List (Int × Nat))
    (recipe_db : List (Int × List (List Int))) (vendor_ids : List Int)
    (min_stock_val : Nat) (ingredients : List (List Int)) : Bool :=
  ingredients.any fun group =>
    group.all fun opt =>
      check_stock_recursive market_stock recipe_db vendor_ids min_stock_val 6 opt

/-- The result aggregation loop in `main` (app.py lines 240-281):
items are kept in their original scraped order, dropped when their
name is unknown (line 245), when they have no recipe (line 251), or
when `can_craft` fails (lines 280-281).  The display (lines 283-292)
renders `valid_results` as-is, with no sorting. -/
def valid_results {α : Type} [DecidableEq α] (items : List (α × Int))
    (name_map : List (α × Int)) (market_stock : List (Int × Nat))
    (recipe_db : List (Int × List (List Int))) (vendor_ids : List Int)
    (min_stock_val : Nat) : List (α × Int) :=
  items.filter fun item =>
    match findFirst name_map item.1 with
    | none => false
    | some pid =>
      match findFirst recipe_db pid with
      | none => false
      | some ingredients =>
        can_craft market_stock recipe_db vendor_ids min_stock_val ingredients

/-- Decides whether a result list is sorted by descending profit
(second component), the order the spec requires of the final output. -/
def descByProfit {α : Type} : List (α × Int) → Bool
  | [] => true
  | [_] => true
  | a :: b :: rest => decide (b.2 ≤ a.2) && descByProfit (b :: rest)

/-- One raw recipe record of a category file, as consumed by
`load_recipe_db` (app.py lines 38-48): the product id after attempted
coercion (`none` = `int(...)` raises), the product display name, and
the ingredient groups when the `ingredients` key is present, each
ingredient id after attempted coercion. -/
structure RawRecord (α : Type) where
  pid : Option Int
  name : α
  ingredients : Option (List (List (Option Int)))

/-- The mutable state built up by `load_recipe_db` (app.py
lines 29-30): the name-to-id map and the product-id-to-slots map. -/
structure LoadState (α : Type) where
  name_map : List (α × Int)
  recipe_db : List (Int × List (List Int))

/-- Coercion of the alternative ids of one ingredient group
(app.py line 46): fails as a whole if any single id fails. -/
def coerceOpts : List (Option Int) → Option (List Int)
  | [] => some []
  | none :: _ => none
  | some i :: rest =>
    match coerceOpts rest with
    | none => none
    | some l => some (i :: l)

/-- Coercion of all ingredient groups of one record (app.py
lines 44-47): fails as a whole if any group fails. -/
def coerceGroups : List (List (Option Int)) → Option (List (List Int))
  | [] => some []
  | g :: rest =>
    match coerceOpts g, coerceGroups rest with
    | some g2, some rest2 => some (g2 :: rest2)
    | _, _ => none

/-- Processing of one record inside the per-file loop of
`load_recipe_db` (app.py lines 38-48).  Returns the new state and a
flag that is `false` when the record raised (a non-coercible id): the
`try` block wraps the whole file loop, so a raise ends the file.
Mutation order follows the source: the product id is coerced first
(line 39, a failure leaves the state untouched), the name map is
updated next (line 41), and the recipe map last (line 48), so a
failure while coercing ingredient ids keeps the name-map update but
not the recipe entry. -/
def processRecord {α : Type} (s : LoadState α) (r : RawRecord α) :
    LoadState α × Bool :=
  match r.pid with
  | none => (s, false)
  | some pid =>
    let nm := (r.name, pid) :: s.name_map
    match r.ingredients with
    | none => (⟨nm, s.recipe_db⟩, true)
    | some groups =>
      match coerceGroups groups with
      | none => (⟨nm, s.recipe_db⟩, false)
      | some ings => (⟨nm, (pid, ings) :: s.recipe_db⟩, true)

/-- One iteration of the file loop of `load_recipe_db` (app.py
lines 34-49): records are processed in order until one raises, at
which point the `except: pass` at line 49 silently drops the rest of
the file, keeping the state already built. -/
def processFile {α : Type} (s : LoadState α) : List (RawRecord α) → LoadState α
  | [] => s
  | r :: rest =>
    match processRecord s r with
    | (s2, true) => processFile s2 rest
    | (s2, false) => s2

/-- Python `load_recipe_db` (app.py lines 28-50) over already-parsed
category files, starting from empty maps; a failed file leaves the
state of the earlier files intact and the loop moves on. -/
def load_recipe_db {α : Type} (files : List (List (RawRecord α))) : LoadState α :=
  files.foldl processFile ⟨[], []⟩

/-- Stated from the spec for comparison with the code: the
recipe-expansion rule of the specification, AND over ingredient slots
of OR over that slot's alternatives, each alternative resolved at one
less residual depth. -/
def spec_recipe_expansion (market_data : List (Int × Nat))
    (recipe_db : List (Int × List (List Int))) (vendor_ids : List Int)
    (min_stock_val : Nat) (fuel : Nat) (ingredients : List (List Int)) : Bool :=
  ingredients.all fun slot =>
    slot.any fun alt =>
      check_stock_recursive market_data recipe_db vendor_ids min_stock_val fuel alt

/-- A two-item cyclic catalog: item 1 needs item 2, item 2 needs
item 1 (one slot, one alternative each). -/
def cyc_db : List (Int × List (List Int)) := [(1, [[2]]), (2, [[1]])]

/-- Claim C1 (code bug): on the catalog built by the loader, the
resolver does NOT compute AND over slots of OR over alternatives.
Failing input: recipe 100 with a single slot offering alternatives
200 or 201; item 200 is in stock (stock 5 ≥ threshold 1), 201 is not.
The spec rule (`spec_recipe_expansion`) makes 100 obtainable, but the
code returns false, because it treats each alternative as a separate
mandatory slot. -/
theorem c1_slot_semantics_flipped :
    check_stock_recursive [(200, 5)] [(100, [[200, 201]])] [] 1 6 100 = false ∧
    spec_recipe_expansion [(200, 5)] [(100, [[200, 201]])] [] 1 5 [[200, 201]] = true := by
  decide

/-- Claim C2 counterexample: two craftable items scraped with profits
1 then 5 (both recipes need only the vendor item 5600) are output in
scrape order, so the final output is not sorted by descending profit. -/
theorem c2_not_sorted_counterexample :
    valid_results [((0 : Nat), (1 : Int)), (1, 5)] [(0, 1), (1, 2)] []
        [(1, [[5600]]), (2, [[5600]])] [5600] 1 = [(0, 1), (1, 5)] ∧
    descByProfit (valid_results [((0 : Nat), (1 : Int)), (1, 5)] [(0, 1), (1, 2)] []
        [(1, [[5600]]), (2, [[5600]])] [5600] 1) = false := by
  decide

/-- Claim C2 as amended: the aggregator's output is an
order-preserving subsequence of the scraped item list (a filter):
deterministic for a fixed input, but never re-sorted by profit. -/
theorem c2_output_preserves_input_order {α : Type} [DecidableEq α]
    (items name_map : List (α × Int)) (market_stock : List (Int × Nat))
    (recipe_db : List (Int × List (List Int))) (v : List Int) (s : Nat) :
    List.Sublist (valid_results items name_map market_stock recipe_db v s) items := by
  unfold valid_results
  exact List.filter_sublist items

/-- Claim C3 counterexample: 5600 is in the hard-coded vendor set,
yet at residual depth 0 the resolver returns false for it, because
the source checks `depth > 5` before the vendor set. -/
theorem c3_vendor_false_at_zero_depth :
    vendor_ids.contains 5600 = true ∧
    check_stock_recursive [] [] vendor_ids 1 0 5600 = false := by
  decide

/-- Claim C3 as amended: a vendor item resolves obtainable at every
residual depth of at least 1; only the depth-exhausted case beats the
vendor terminal. -/
theorem c3_vendor_true_positive_depth (m : List (Int × Nat))
    (db : List (Int × List (List Int))) (v : List Int) (s fuel : Nat) (t : Int)
    (h : v.contains t = true) :
    check_stock_recursive m db v s (fuel + 1) t = true := by
  simp only [check_stock_recursive]
  rw [if_pos h]

/-- Witness for `c3_vendor_true_positive_depth` at a concrete vendor
item and depth. -/
theorem c3_vendor_true_positive_depth_witness :
    check_stock_recursive [] [] [5600] 1 1 5600 = true :=
  c3_vendor_true_positive_depth [] [] [5600] 1 0 5600 (by decide)

/-- Claim C4 counterexample: two category files both define product 1,
first as craftable from vendor item 5600, then from the unobtainable
item 7.  After loading, only the second recipe is consulted and the
product resolves to false, although the discarded first recipe
resolves to true. -/
theorem c4_duplicate_recipe_lost :
    findFirst (load_recipe_db [[⟨some 1, (0 : Nat), some [[some 5600]]⟩],
        [⟨some 1, 0, some [[some 7]]⟩]]).recipe_db 1 = some [[7]] ∧
    check_stock_recursive []
        (load_recipe_db [[⟨some 1, (0 : Nat), some [[some 5600]]⟩],
          [⟨some 1, 0, some [[some 7]]⟩]]).recipe_db [5600] 1 6 1 = false ∧
    check_stock_recursive [] [(1, [[5600]])] [5600] 1 6 1 = true := by
  decide

/-- Claim C4 as amended: loading a record whose product id is already
bound overwrites the earlier recipe — after processing a record, the
recipe consulted for its product id is exactly that record's
ingredient list, whatever was bound before. -/
theorem c4_later_recipe_overwrites {α : Type} (s : LoadState α) (nm : α)
    (pid : Int) (groups : List (List (Option Int))) (ings : List (List Int))
    (h : coerceGroups groups = some ings) :
    findFirst (processRecord s ⟨some pid, nm, some groups⟩).1.recipe_db pid
      = some ings := by
  simp [processRecord, h, findFirst]

/-- Witness for `c4_later_recipe_overwrites`: overwriting an existing
binding for product 1. -/
theorem c4_later_recipe_overwrites_witness :
    findFirst (processRecord (⟨[], [(1, [[5600]])]⟩ : LoadState Nat)
        ⟨some 1, 0, some [[some 7]]⟩).1.recipe_db 1 = some [[7]] :=
  c4_later_recipe_overwrites ⟨[], [(1, [[5600]])]⟩ 0 1 [[some 7]] [[7]] rfl

/-- Claim C5 counterexample: product 1 has a recipe with an empty
ingredient-slot list; the scraped item naming it is excluded from the
results instead of being trivially craftable. -/
theorem c5_empty_recipe_excluded :
    findFirst [((1 : Int), ([] : List (List Int)))] 1 = some [] ∧
    valid_results [((0 : Nat), (10 : Int))] [(0, 1)] [] [(1, [])] [] 1 = [] := by
  decide

/-- Claim C5 as amended: a recipe with an empty ingredient-slot list
is evaluated as not craftable (the variation loop finds no variation
to accept), for every market snapshot and parameter set. -/
theorem c5_empty_ingredients_not_craftable (m : List (Int × Nat))
    (db : List (Int × List (List Int))) (v : List Int) (s : Nat) :
    can_craft m db v s [] = false := rfl

/-- Unfolding equation for `check_stock_recursive` at a positive
residual budget, stated once so inductive proofs can rewrite only the
outermost call. -/
theorem check_stock_recursive_succ (m : List (Int × Nat))
    (db : List (Int × List (List Int))) (v : List Int) (s fuel : Nat) (t : Int) :
    check_stock_recursive m db v s (fuel + 1) t =
      if v.contains t then true
      else if s ≤ getD0 m t then true
      else
        match findFirst db t with
        | none => false
        | some ingredients =>
          ingredients.any fun group =>
            group.all fun opt_id =>
              check_stock_recursive m db v s fuel opt_id := rfl

/-- Claim C6 counterexample: with identical explicit arguments
(item 10 with stock 100, empty catalog and vendor set, residual
depth 6), the resolver answers true when the ambient session
threshold is 50 and false when it is 200: the result is not a
function of the explicit arguments alone. -/
theorem c6_threshold_changes_result :
    check_stock_recursive [(10, 100)] [] [] 50 6 10 = true ∧
    check_stock_recursive [(10, 100)] [] [] 200 6 10 = false := by
  decide

/-- Claim C6 as amended: the resolver is a function of its explicit
arguments together with the ambient session minimum-stock threshold,
and for fixed explicit arguments it is antitone in that threshold:
obtainable at a threshold stays obtainable at any lower threshold. -/
theorem c6_threshold_antitone (m : List (Int × Nat))
    (db : List (Int × List (List Int))) (v : List Int) :
    ∀ (fuel : Nat) (t : Int) (s1 s2 : Nat), s1 ≤ s2 →
      check_stock_recursive m db v s2 fuel t = true →
      check_stock_recursive m db v s1 fuel t = true := by
  intro fuel
  induction fuel with
  | zero =>
    intro t s1 s2 _ h
    simp [check_stock_recursive] at h
  | succ fuel ih =>
    intro t s1 s2 hle h
    rw [check_stock_recursive_succ] at h ⊢
    by_cases hv : v.contains t = true
    · rw [if_pos hv]
    · rw [if_neg hv] at h ⊢
      by_cases hs1 : s1 ≤ getD0 m t
      · rw [if_pos hs1]
      · have hs2 : ¬ s2 ≤ getD0 m t := fun hc => hs1 (le_trans hle hc)
        rw [if_neg hs2] at h
        rw [if_neg hs1]
        cases hdb : findFirst db t with
        | none =>
          rw [hdb] at h
          exact Bool.noConfusion (show false = true from h)
        | some ingredients =>
          rw [hdb] at h
          replace h : (ingredients.any fun group =>
              group.all fun opt_id =>
                check_stock_recursive m db v s2 fuel opt_id) = true := h
          show (ingredients.any fun group =>
              group.all fun opt_id =>
                check_stock_recursive m db v s1 fuel opt_id) = true
          rw [List.any_eq_true] at h ⊢
          obtain ⟨g, hg, hall⟩ := h
          refine ⟨g, hg, ?_⟩
          rw [List.all_eq_true] at hall ⊢
          intro o ho
          exact ih o s1 s2 hle (hall o ho)

/-- Witness for `c6_threshold_antitone`: item 10 with stock 100 is
obtainable at threshold 100, hence at the lower threshold 50. -/
theorem c6_threshold_antitone_witness :
    check_stock_recursive [(10, 100)] [] [] 50 6 10 = true :=
  c6_threshold_antitone [(10, 100)] [] [] 6 10 50 100 (by decide) (by decide)

/-- Claim C7: obtainability is monotone in the residual depth budget:
a true answer at budget `fuel` stays true at budget `fuel + 1`, for
every item, snapshot, catalog, vendor set and threshold. -/
theorem c7_monotone_in_depth (m : List (Int × Nat))
    (db : List (Int × List (List Int))) (v : List Int) (s : Nat) :
    ∀ (fuel : Nat) (t : Int),
      check_stock_recursive m db v s fuel t = true →
      check_stock_recursive m db v s (fuel + 1) t = true := by
  intro fuel
  induction fuel with
  | zero =>
    intro t h
    simp [check_stock_recursive] at h
  | succ fuel ih =>
    intro t h
    rw [check_stock_recursive_succ] at h
    rw [check_stock_recursive_succ m db v s (fuel + 1) t]
    by_cases hv : v.contains t = true
    · rw [if_pos hv]
    · rw [if_neg hv] at h ⊢
      by_cases hs : s ≤ getD0 m t
      · rw [if_pos hs]
      · rw [if_neg hs] at h ⊢
        cases hdb : findFirst db t with
        | none =>
          rw [hdb] at h
          exact Bool.noConfusion (show false = true from h)
        | some ingredients =>
          rw [hdb] at h
          replace h : (ingredients.any fun group =>
              group.all fun opt_id =>
                check_stock_recursive m db v s fuel opt_id) = true := h
          show (ingredients.any fun group =>
              group.all fun opt_id =>
                check_stock_recursive m db v s (fuel + 1) opt_id) = true
          rw [List.any_eq_true] at h ⊢
          obtain ⟨g, hg, hall⟩ := h
          refine ⟨g, hg, ?_⟩
          rw [List.all_eq_true] at hall ⊢
          intro o ho
          exact ih o (hall o ho)

/-- Witness for `c7_monotone_in_depth`: vendor item 5600 obtainable
at budget 1, hence at budget 2. -/
theorem c7_monotone_in_depth_witness :
    check_stock_recursive [] [] [5600] 1 2 5600 = true :=
  c7_monotone_in_depth [] [] [5600] 1 1 5600 (by decide)

/-- Claim C8: the resolver is total because the residual depth
strictly decreases — at an exhausted budget it answers false at once
for every input, and on the cyclic catalog `cyc_db` (item 1 needs 2,
item 2 needs 1) it computes a definite answer at every budget. -/
theorem c8_depth_bound_terminates :
    (∀ (m : List (Int × Nat)) (db : List (Int × List (List Int)))
        (v : List Int) (s : Nat) (t : Int),
        check_stock_recursive m db v s 0 t = false) ∧
    (∀ fuel : Nat,
        check_stock_recursive [] cyc_db [] 1 fuel 1 = false ∧
        check_stock_recursive [] cyc_db [] 1 fuel 2 = false) := by
  constructor
  · intro m db v s t
    rfl
  · intro fuel
    induction fuel with
    | zero => exact ⟨rfl, rfl⟩
    | succ fuel ih =>
      refine ⟨?_, ?_⟩
      · have h1 : check_stock_recursive [] cyc_db [] 1 (fuel + 1) 1 =
            ((check_stock_recursive [] cyc_db [] 1 fuel 2 && true) || false) := rfl
        rw [h1, ih.2]
        rfl
      · have h2 : check_stock_recursive [] cyc_db [] 1 (fuel + 1) 2 =
            ((check_stock_recursive [] cyc_db [] 1 fuel 1 && true) || false) := rfl
        rw [h2, ih.1]
        rfl

/-- Claim C9 counterexample: a category file holds a good record for
product 1, then a record whose id cannot be coerced, then a good
record for product 2.  After loading, product 1 is present but
product 2 was never loaded: the bad record aborted the rest of its
file rather than being skipped individually. -/
theorem c9_file_aborted_after_bad_record :
    findFirst (load_recipe_db [[⟨some 1, (0 : Nat), some [[some 5600]]⟩,
        ⟨none, 1, none⟩, ⟨some 2, 2, some [[some 5600]]⟩]]).recipe_db 2 = none ∧
    findFirst (load_recipe_db [[⟨some 1, (0 : Nat), some [[some 5600]]⟩,
        ⟨none, 1, none⟩, ⟨some 2, 2, some [[some 5600]]⟩]]).recipe_db 1
      = some [[5600]] := by
  decide

/-- Claim C9 as amended: a record whose product id cannot be coerced
aborts the remainder of its category file — from any load state, the
file's result is the state already built, every following record of
that file dropped, and nothing is recorded about the failure. -/
theorem c9_bad_record_aborts_file {α : Type} (s : LoadState α) (nm : α)
    (ing : Option (List (List (Option Int)))) (rest : List (RawRecord α)) :
    processFile s (⟨none, nm, ing⟩ :: rest) = s := rfl

/-- Claim C10: with the session threshold at 0 the resolver answers
true for every item id at every non-exhausted residual depth, since a
missing snapshot entry defaults to stock 0 and 0 meets the threshold. -/
theorem c10_zero_threshold_all_obtainable (m : List (Int × Nat))
    (db : List (Int × List (List Int))) (v : List Int) (fuel : Nat) (t : Int) :
    check_stock_recursive m db v 0 (fuel + 1) t = true := by
  simp only [check_stock_recursive]
  by_cases hv : v.contains t = true
  · rw [if_pos hv]
  · rw [if_neg hv, if_pos (Nat.zero_le _)]

end BDO
